import Mathlib

/-!
Verification of the flexible column-mapping and metrics-aggregation engine
(the data-normalization layer of the media-planner repository).

The embedding models the JavaScript module that exports `findColumnMatch`
(internal), `validateMediaData`, `calculateBasicMetrics` and
`prepareDataForAI`.  JavaScript numbers are modelled as exact rationals
(`JSNum`, a numerator/denominator pair kept in lowest terms), cell values
as a tagged union (string / number / empty), rows as either an array of
cells or `null` (any JavaScript value may be handed to the exported
functions), and thrown exceptions as `Except` errors.
-/

namespace MediaPlanner

/-! ### Exact rational numbers standing in for JavaScript numbers -/

/-- A rational number `num / den`, stored in lowest terms with `den > 0`
by construction, standing in for a JavaScript number. -/
structure JSNum where
  num : Int
  den : Nat
deriving DecidableEq

/-- Build a `JSNum` in lowest terms from a numerator and a positive
denominator. -/
def jsn (n : Int) (d : Nat) : JSNum :=
  let g := n.natAbs.gcd d
  ⟨n / (g : Int), d / g⟩

instance : OfNat JSNum n := ⟨⟨(n : Int), 1⟩⟩

instance : OfScientific JSNum :=
  ⟨fun m b e => if b then jsn (m : Int) (10 ^ e) else ⟨((m * 10 ^ e : Nat) : Int), 1⟩⟩

instance : Neg JSNum := ⟨fun a => ⟨-a.num, a.den⟩⟩

/-- Strict order on the represented rationals (denominators are positive). -/
def jsnLt (a b : JSNum) : Bool :=
  decide (a.num * (b.den : Int) < b.num * (a.den : Int))

/-- Addition of represented rationals. -/
def jsnAdd (a b : JSNum) : JSNum :=
  jsn (a.num * (b.den : Int) + b.num * (a.den : Int)) (a.den * b.den)

/-- Division by a positive natural number (list lengths). -/
def jsnDivNat (a : JSNum) (n : Nat) : JSNum :=
  jsn a.num (a.den * n)

/-- Multiplication by `10 ^ d` (scaling inside `toFixed`). -/
def jsnMulPow10 (a : JSNum) (d : Nat) : JSNum :=
  jsn (a.num * ((10 ^ d : Nat) : Int)) a.den

/-- Floor of the represented rational. -/
def jsnFloor (a : JSNum) : Int :=
  Int.fdiv a.num (a.den : Int)

/-- Ceiling of the represented rational. -/
def jsnCeil (a : JSNum) : Int :=
  -(Int.fdiv (-a.num) (a.den : Int))

/-- `Math.max` on two (non-`NaN`) numbers. -/
def jsnMax (a b : JSNum) : JSNum :=
  if jsnLt a b then b else a

/-- `Math.min` on two (non-`NaN`) numbers. -/
def jsnMin (a b : JSNum) : JSNum :=
  if jsnLt b a then b else a

/-! ### The data model -/

/-- A CSV cell as produced by the parsing layer with dynamic typing:
a string, a number, or an empty/undefined/null scalar (all of which
`parseFloat`/`parseInt` turn into `NaN`). -/
inductive Cell where
  | str (s : String)
  | num (q : JSNum)
  | empty
deriving DecidableEq

/-- A row handed to the metrics aggregator: either a JavaScript array of
cells, or `null` (indexing a `null` row throws a `TypeError`). -/
inductive JSRow where
  | arr (cells : List Cell)
  | null
deriving DecidableEq

/-- The tabular input `{headers, rows}` consumed by the core. -/
structure Table where
  headers : List String
  rows : List JSRow
deriving DecidableEq

/-- JavaScript exceptions that the modelled code can raise. -/
inductive JSErr where
  | typeError
  | refError
deriving DecidableEq

/-! ### String helpers modelling the JavaScript string operations used -/

/-- ASCII lowercasing of one character (`toLowerCase`). -/
def charToLower (c : Char) : Char :=
  if 'A' ≤ c && c ≤ 'Z' then Char.ofNat (c.toNat + 32) else c

/-- `toLowerCase` over a character list. -/
def toLowerL (l : List Char) : List Char :=
  l.map charToLower

/-- `trim`: drop leading and trailing whitespace. -/
def trimL (l : List Char) : List Char :=
  ((l.dropWhile Char.isWhitespace).reverse.dropWhile Char.isWhitespace).reverse

/-- Does the character list start with the pattern `pat`? -/
def startsWithL : List Char → List Char → Bool
  | [], _ => true
  | _ :: _, [] => false
  | a :: as, b :: bs => a == b && startsWithL as bs

/-- Does the character list contain `pat` as a contiguous segment?
Models JavaScript `String.prototype.includes` (the empty pattern is
contained in every string). -/
def containsL : List Char → List Char → Bool
  | pat, [] => pat.isEmpty
  | pat, c :: rest => startsWithL pat (c :: rest) || containsL pat rest

/-- `jsIncludes s sub` models `s.includes(sub)`. -/
def jsIncludes (s sub : String) : Bool :=
  containsL sub.toList s.toList

/-- `s.toLowerCase()` as a string operation. -/
def jsToLower (s : String) : String :=
  String.mk (toLowerL s.toList)

/-- Replace every maximal run of whitespace by a single underscore,
modelling `replace(/\s+/g, '_')`.  The boolean records whether the
previous character was part of a whitespace run already replaced. -/
def collapseWsAux : Bool → List Char → List Char
  | _, [] => []
  | prevWs, c :: rest =>
    if c.isWhitespace then
      (if prevWs then [] else ['_']) ++ collapseWsAux true rest
    else
      c :: collapseWsAux false rest

/-- Header normalization: `h.toString().toLowerCase().trim().replace(/\s+/g, '_')`. -/
def normalizeHeader (h : String) : String :=
  String.mk (collapseWsAux false (trimL (toLowerL h.toList)))

/-- Alias normalization: `possibleName.toLowerCase().trim()`. -/
def normAlias (a : String) : String :=
  String.mk (trimL (toLowerL a.toList))

/-- `header.replace(/%/g, '')`: remove all percent signs. -/
def stripPct (s : String) : String :=
  String.mk (s.toList.filter (fun c => c != '%'))

/-- `x.replace(/[-_]/g, '')`: remove all dashes and underscores. -/
def stripDU (s : String) : String :=
  String.mk (s.toList.filter (fun c => c != '-' && c != '_'))

/-! ### The Column Catalogue (`COLUMN_MAPPINGS`) -/

/-- The catalogue object: each canonical field name with its ordered list
of accepted alias spellings, exactly as in the source. -/
def columnMappingsList : List (String × List String) :=
  [ ("channel",
      ["channel", "platform", "media", "source", "campaign_type", "ad_platform",
       "advertising_channel", "media_channel", "placement", "vendor"]),
    ("ctr",
      ["ctr", "click_through_rate", "click-through-rate", "clickthrough_rate",
       "click_rate", "clicks_per_impression", "click_percentage", "ctr_%", "ctr%",
       "click_thru_rate", "engagement_rate"]),
    ("cpm",
      ["cpm", "cost_per_mille", "cost_per_thousand", "cost_per_1000",
       "cost_per_1k", "cpt", "cost_per_impression", "impression_cost",
       "cost_per_m", "cost_per_thousand_impressions", "cpm_cost"]),
    ("reach",
      ["reach", "total_reach", "unique_reach", "audience_reach", "people_reached",
       "unique_users", "total_audience", "impressions_reach", "unduplicated_reach",
       "net_reach", "coverage"]),
    ("frequency",
      ["frequency", "avg_frequency", "average_frequency", "freq", "impression_frequency",
       "contact_frequency", "exposure_frequency", "frequency_avg", "times_seen"]),
    ("impressions",
      ["impressions", "total_impressions", "impression", "views", "total_views",
       "ad_impressions", "served_impressions", "delivered_impressions"]),
    ("clicks",
      ["clicks", "total_clicks", "click", "link_clicks", "ad_clicks",
       "click_count", "clickthroughs"]),
    ("cost",
      ["cost", "total_cost", "spend", "budget", "investment", "media_cost",
       "advertising_cost", "campaign_cost", "total_spend", "amount_spent"]),
    ("budget",
      ["budget", "planned_budget", "allocated_budget", "budget_allocation",
       "investment", "spend_target", "budget_amount"]),
    ("demographic",
      ["demographic", "demo", "age_group", "target_demo", "audience",
       "age_range", "demo_group", "target_audience", "segment"]),
    ("geography",
      ["geography", "geo", "location", "region", "market", "area",
       "territory", "geographic_area", "locale", "city", "state", "country"]),
    ("date",
      ["date", "time", "period", "week", "month", "quarter", "campaign_date",
       "flight_date", "run_date", "start_date", "end_date"]) ]

/-- `COLUMN_MAPPINGS[targetColumn] || []`. -/
def COLUMN_MAPPINGS (targetColumn : String) : List String :=
  (columnMappingsList.lookup targetColumn).getD []

/-! ### The Header Matcher (`findColumnMatch`) -/

/-- The result object of `findColumnMatch`. -/
structure ColumnMatch where
  found : Bool
  originalName : Option String
  index : Int
  mappedTo : String
deriving DecidableEq

/-- The five-way matching predicate applied to a normalized header and a
normalized alias inside the `findIndex` callback. -/
def headerAliasMatch (header possible : String) : Bool :=
  header == possible ||
  jsIncludes header possible ||
  jsIncludes possible header ||
  jsIncludes (stripPct header) possible ||
  jsIncludes (stripDU header) (stripDU possible)

/-- The outer `for (let possibleName of possibleNames)` loop: for each alias
in catalogue order, scan the normalized headers in original order
(`findIndex`) and return the first header index that matches. -/
def findAliasIdx (normalizedHeaders : List String) : List String → Option Nat
  | [] => none
  | a :: rest =>
    match normalizedHeaders.findIdx? (fun h => headerAliasMatch h (normAlias a)) with
    | some i => some i
    | none => findAliasIdx normalizedHeaders rest

/-- `findColumnMatch(headers, targetColumn)` from the source. -/
def findColumnMatch (headers : List String) (targetColumn : String) : ColumnMatch :=
  let normalizedHeaders := headers.map normalizeHeader
  let possibleNames := COLUMN_MAPPINGS targetColumn
  match findAliasIdx normalizedHeaders possibleNames with
  | some i =>
    { found := true, originalName := some (headers.getD i ""),
      index := (i : Int), mappedTo := targetColumn }
  | none =>
    { found := false, originalName := none, index := -1, mappedTo := targetColumn }

/-! ### The Data Validator (`validateMediaData`) -/

/-- The validation verdict object.  The three `Option` fields are the keys
that the early "no headers" return leaves absent (`undefined`). -/
structure Verdict where
  isValid : Bool
  missingColumns : List String
  suggestions : String
  columnMappings : List (String × ColumnMatch)
  recommendedColumns : List String
  foundColumns : Option (List String)
  hasChannelData : Option Bool
  dataQuality : Option String
deriving DecidableEq

/-- The core columns the validator tries: `idealColumns` in the source. -/
def idealColumns : List String :=
  ["channel", "ctr", "cpm", "reach", "frequency", "impressions", "clicks", "cost"]

/-- Number of ideal columns for which `findColumnMatch` succeeds on the
given headers. -/
def matchedCount (headers : List String) : Nat :=
  (idealColumns.filter (fun c => (findColumnMatch headers c).found)).length

/-- `validateMediaData(data)` from the source.  The `forEach` push loop over
`idealColumns` is rendered as `filter`/`filterMap` over the same list in
the same order. -/
def validateMediaData (data : Table) : Verdict :=
  if data.headers.isEmpty then
    { isValid := false
      missingColumns := []
      suggestions := "No headers found in the CSV file. Please ensure the first row contains column headers."
      columnMappings := []
      recommendedColumns := []
      foundColumns := none
      hasChannelData := none
      dataQuality := none }
  else
    let foundColumns := idealColumns.filter (fun c => (findColumnMatch data.headers c).found)
    let missingColumns := idealColumns.filter (fun c => !(findColumnMatch data.headers c).found)
    let foundMappings := idealColumns.filterMap (fun c =>
      let m := findColumnMatch data.headers c
      if m.found then some (c, m) else none)
    let hasMinimumData := decide (2 ≤ foundColumns.length)
    let channelFlag := (foundMappings.lookup "channel").isSome ||
      data.headers.any (fun h => jsIncludes (jsToLower h) "platform" || jsIncludes (jsToLower h) "source")
    { isValid := hasMinimumData
      missingColumns := missingColumns
      foundColumns := some foundColumns
      columnMappings := foundMappings
      suggestions :=
        if hasMinimumData then
          "Great! Found " ++ toString foundColumns.length ++
            " relevant columns. The AI can analyze this data."
        else
          "Found " ++ toString foundColumns.length ++
            " relevant columns. For best results, include columns for channel, metrics like CTR/CPM, and performance data."
      hasChannelData := some channelFlag
      recommendedColumns := foundColumns
      dataQuality := some (if hasMinimumData then
          (if 4 ≤ foundColumns.length then "excellent" else "good")
        else "limited") }

/-! ### Numeric parsing (JavaScript `parseFloat` / `parseInt` / rounding) -/

/-- Decimal digits to a natural number. -/
def digitsToNat (l : List Char) : Nat :=
  l.foldl (fun acc c => acc * 10 + (c.toNat - '0'.toNat)) 0

/-- `parseFloat` on a string holding an optionally signed plain decimal
literal: skip leading whitespace, optional sign, digits, optional fraction;
`none` models `NaN` (no digit found). -/
def jsParseFloatStr (s : String) : Option JSNum :=
  let l0 := s.toList.dropWhile Char.isWhitespace
  let sign : Int := match l0 with
    | '-' :: _ => -1
    | _ => 1
  let l1 := match l0 with
    | '-' :: rest => rest
    | '+' :: rest => rest
    | _ => l0
  let intPart := l1.takeWhile Char.isDigit
  let l2 := l1.dropWhile Char.isDigit
  let fracPart := match l2 with
    | '.' :: rest => rest.takeWhile Char.isDigit
    | _ => []
  if intPart.isEmpty && fracPart.isEmpty then none
  else
    some (jsn (sign * (digitsToNat (intPart ++ fracPart) : Int)) (10 ^ fracPart.length))

/-- `parseInt` (radix 10) on a string: skip leading whitespace, optional
sign, then the longest digit prefix; `none` models `NaN`. -/
def jsParseIntStr (s : String) : Option Int :=
  let l0 := s.toList.dropWhile Char.isWhitespace
  let sign : Int := match l0 with
    | '-' :: _ => -1
    | _ => 1
  let l1 := match l0 with
    | '-' :: rest => rest
    | '+' :: rest => rest
    | _ => l0
  let ds := l1.takeWhile Char.isDigit
  if ds.isEmpty then none else some (sign * (digitsToNat ds : Int))

/-- Truncation toward zero, the effect of `parseInt` on a number rendered
as a plain decimal string. -/
def jsTrunc (q : JSNum) : Int :=
  if 0 ≤ q.num then jsnFloor q else jsnCeil q

/-- `parseFloat(cell)`: numbers pass through, strings are parsed, empty or
undefined cells give `NaN` (`none`). -/
def parseFloatCell : Cell → Option JSNum
  | .num q => some q
  | .str s => jsParseFloatStr s
  | .empty => none

/-- `parseInt(cell)` for the reach column. -/
def parseIntCell : Cell → Option Int
  | .num q => some (jsTrunc q)
  | .str s => jsParseIntStr s
  | .empty => none

/-- `Math.round`: round half toward positive infinity. -/
def jsRound (q : JSNum) : Int :=
  jsnFloor (jsnAdd q (jsn 1 2))

/-- Left-pad a digit string with zeros to width `d`. -/
def padZeros (d : Nat) (s : String) : String :=
  String.mk (List.replicate (d - s.length) '0') ++ s

/-- `Number.prototype.toFixed(d)`: fixed-point rendering with `d` digits
after the point; the nearest scaled integer is chosen, ties toward the
larger integer, as the ECMAScript definition prescribes. -/
def toFixed (d : Nat) (q : JSNum) : String :=
  let n : Int := jsnFloor (jsnAdd (jsnMulPow10 q d) (jsn 1 2))
  let a := n.natAbs
  let p := 10 ^ d
  let body := toString (a / p) ++ (if d = 0 then "" else "." ++ padZeros d (toString (a % p)))
  if n < 0 then "-" ++ body else body

/-! ### The Metrics Aggregator (`calculateBasicMetrics`) -/

/-- `row[i]`: indexing a `null` row throws a `TypeError`; an out-of-range
or negative index on an array yields `undefined` (modelled as an empty
cell, which parses to `NaN` just as `undefined` does). -/
def getCell : JSRow → Int → Except JSErr Cell
  | .null, _ => .error .typeError
  | .arr cells, i => .ok (if 0 ≤ i then cells.getD i.toNat Cell.empty else Cell.empty)

/-- `data.rows.map(row => row[i])`, left to right, propagating the first
thrown `TypeError`. -/
def extractVals (rows : List JSRow) (i : Int) : Except JSErr (List Cell) :=
  rows.mapM (fun r => getCell r i)

/-- `if (mappings.field) { ... data.rows.map(row => row[mappings.field.index]) }`:
when the field is unmapped no cells are read. -/
def extractOpt (mappings : List (String × ColumnMatch)) (field : String)
    (rows : List JSRow) : Except JSErr (Option (List Cell)) :=
  match mappings.lookup field with
  | none => .ok none
  | some m => (extractVals rows m.index).map some

/-- `.map(parseFloat).filter(val => !isNaN(val) && val > 0)`. -/
def posVals (cells : List Cell) : List JSNum :=
  cells.filterMap (fun c =>
    match parseFloatCell c with
    | some v => if jsnLt 0 v then some v else none
    | none => none)

/-- `.map(parseInt).filter(val => !isNaN(val) && val > 0)` (reach column). -/
def posInts (cells : List Cell) : List Int :=
  cells.filterMap (fun c =>
    match parseIntCell c with
    | some v => if 0 < v then some v else none
    | none => none)

/-- Sum of a list of numbers (`reduce((sum, val) => sum + val, 0)`). -/
def listSum (l : List JSNum) : JSNum :=
  l.foldl jsnAdd 0

/-- Sum of a list of integers. -/
def listSumInt (l : List Int) : Int :=
  l.foldl (· + ·) 0

/-- `(values.reduce(...) / values.length).toFixed(d)` guarded by
`values.length > 0`; `none` means the statistics key is absent. -/
def statAvg (d : Nat) (vals : List JSNum) : Option String :=
  match vals with
  | [] => none
  | v :: vs => some (toFixed d (jsnDivNat (listSum (v :: vs)) (vs.length + 1)))

/-- `Math.max(...values).toFixed(d)` guarded by `values.length > 0`. -/
def statMax (d : Nat) (vals : List JSNum) : Option String :=
  match vals with
  | [] => none
  | v :: vs => some (toFixed d (vs.foldl jsnMax v))

/-- `Math.min(...values).toFixed(d)` guarded by `values.length > 0`. -/
def statMin (d : Nat) (vals : List JSNum) : Option String :=
  match vals with
  | [] => none
  | v :: vs => some (toFixed d (vs.foldl jsnMin v))

/-- `reachValues.reduce((sum, val) => sum + val, 0)` guarded by
`reachValues.length > 0`. -/
def reachTotal (cells : List Cell) : Option Int :=
  match posInts cells with
  | [] => none
  | v :: vs => some (listSumInt (v :: vs))

/-- `Math.round(totalReach / reachValues.length)` guarded by
`reachValues.length > 0`. -/
def reachAvg (cells : List Cell) : Option Int :=
  match posInts cells with
  | [] => none
  | v :: vs => some (jsRound (jsn (listSumInt (v :: vs)) (vs.length + 1)))

/-- `costValues.reduce((sum, val) => sum + val, 0)` guarded by
`costValues.length > 0`. -/
def costTotal (cells : List Cell) : Option JSNum :=
  match posVals cells with
  | [] => none
  | v :: vs => some (listSum (v :: vs))

/-- The metrics snapshot object.  Statistics keys that the source only sets
conditionally are `Option`-valued; formatted statistics are strings
(`toFixed` output), reach totals and averages are integers and the cost
total is a number. -/
structure Metrics where
  totalCampaigns : Nat
  totalRows : Nat
  columnsFound : Option (List String)
  dataQuality : Option String
  avgCTR : Option String
  maxCTR : Option String
  minCTR : Option String
  avgCPM : Option String
  maxCPM : Option String
  minCPM : Option String
  totalReach : Option Int
  avgReach : Option Int
  avgFrequency : Option String
  totalCost : Option JSNum
  avgCost : Option String
deriving DecidableEq

/-- The body of the `try` block of `calculateBasicMetrics`: the field
blocks execute in source order (ctr, cpm, reach, frequency, cost), each
reading its column's cells only when the field was mapped, so the first
`TypeError` raised by a `null` row propagates out of the block. -/
def calcBody (data : Table) : Except JSErr Metrics := do
  let validation := validateMediaData data
  let mappings := validation.columnMappings
  let ctrCells ← extractOpt mappings "ctr" data.rows
  let cpmCells ← extractOpt mappings "cpm" data.rows
  let reachCells ← extractOpt mappings "reach" data.rows
  let freqCells ← extractOpt mappings "frequency" data.rows
  let costCells ← extractOpt mappings "cost" data.rows
  pure {
    totalCampaigns := data.rows.length
    totalRows := data.rows.length
    columnsFound := validation.foundColumns
    dataQuality := validation.dataQuality
    avgCTR := ctrCells.bind (fun cs => statAvg 2 (posVals cs))
    maxCTR := ctrCells.bind (fun cs => statMax 2 (posVals cs))
    minCTR := ctrCells.bind (fun cs => statMin 2 (posVals cs))
    avgCPM := cpmCells.bind (fun cs => statAvg 2 (posVals cs))
    maxCPM := cpmCells.bind (fun cs => statMax 2 (posVals cs))
    minCPM := cpmCells.bind (fun cs => statMin 2 (posVals cs))
    totalReach := reachCells.bind reachTotal
    avgReach := reachCells.bind reachAvg
    avgFrequency := freqCells.bind (fun cs => statAvg 1 (posVals cs))
    totalCost := costCells.bind costTotal
    avgCost := costCells.bind (fun cs => statAvg 2 (posVals cs)) }

/-- `calculateBasicMetrics(data)`.  `.ok none` is the `null` early return
for an empty row list.  The `catch` block builds
`{totalCampaigns: totalRows, error: ...}`, but `totalRows` is declared
with `let` inside the `try` block and is out of scope in the `catch`
block, so evaluating the handler itself throws a `ReferenceError`, which
propagates to the caller; the handler is therefore modelled as
`.error .refError`. -/
def calculateBasicMetrics (data : Table) : Except JSErr (Option Metrics) :=
  if data.rows.isEmpty then .ok none
  else
    match calcBody data with
    | .ok m => .ok (some m)
    | .error _ => .error .refError

/-! ### The AI Payload Preparer (`prepareDataForAI`) -/

/-- The payload object assembled for the narrative service. -/
structure AIPayload where
  originalHeaders : List String
  mappedColumns : List (String × ColumnMatch)
  foundColumns : Option (List String)
  dataQuality : Option String
  sampleRows : List JSRow
  totalRows : Nat
  basicMetrics : Option Metrics
  hasChannelData : Option Bool
deriving DecidableEq

/-- `prepareDataForAI(data)`; an exception raised while computing the
basic metrics propagates out of the object literal. -/
def prepareDataForAI (data : Table) : Except JSErr AIPayload := do
  let validation := validateMediaData data
  let bm ← calculateBasicMetrics data
  pure {
    originalHeaders := data.headers
    mappedColumns := validation.columnMappings
    foundColumns := validation.foundColumns
    dataQuality := validation.dataQuality
    sampleRows := data.rows.take 10
    totalRows := data.rows.length
    basicMetrics := bm
    hasChannelData := validation.hasChannelData }

/-! ### Definitions supporting the claim statements -/

/-- All canonical fields that own an alias list in the Column Catalogue. -/
def catalogueFields : List String := columnMappingsList.map Prod.fst

/-- `splitsList xs ys whole` holds when every element of `whole` lies in
exactly one of `xs` and `ys`, and both lie inside `whole`: `xs` and `ys`
partition `whole` in the sense of the specification. -/
def splitsList (xs ys whole : List String) : Bool :=
  whole.all (fun c => decide (c ∈ xs) != decide (c ∈ ys)) &&
  xs.all (fun c => decide (c ∈ whole)) &&
  ys.all (fun c => decide (c ∈ whole))

/-- An absent statistics key, or a string produced by fixed-point
formatting with `d` decimal digits. -/
def inFixedRange (d : Nat) : Option String → Prop
  | none => True
  | some s => ∃ q : JSNum, s = toFixed d q

/-! ### Helper lemmas -/

/-- A `some` result of `findAliasIdx` is determined by the first alias in
catalogue order that matches any header, and within that alias by
`findIdx?` over the headers in original order. -/
theorem findAliasIdx_first (nh : List String) (l : List String) (ai hi : Nat)
    (ha : ai < l.length)
    (h1 : ∀ j, j < ai → nh.findIdx? (fun h => headerAliasMatch h (normAlias (l.getD j ""))) = none)
    (h2 : nh.findIdx? (fun h => headerAliasMatch h (normAlias (l.getD ai ""))) = some hi) :
    findAliasIdx nh l = some hi := by
  induction l generalizing ai with
  | nil => exact absurd ha (by simp)
  | cons a rest ih =>
    cases ai with
    | zero =>
      unfold findAliasIdx
      simp only [List.getD_cons_zero] at h2
      rw [h2]
    | succ n =>
      unfold findAliasIdx
      have h0 := h1 0 (Nat.succ_pos n)
      simp only [List.getD_cons_zero] at h0
      rw [h0]
      apply ih n
      · simpa using ha
      · intro j hj
        have hx := h1 (j + 1) (Nat.succ_lt_succ hj)
        simpa [List.getD_cons_succ] using hx
      · simpa [List.getD_cons_succ] using h2

/-- Inversion for a successful run of the `try` body: each mapped column's
cells were extracted without a thrown error, and the resulting snapshot is
the record built from them. -/
theorem calcBody_spec (data : Table) (m : Metrics) (hb : calcBody data = .ok m) :
    ∃ (ctrCells cpmCells reachCells freqCells costCells : Option (List Cell)),
      extractOpt (validateMediaData data).columnMappings "ctr" data.rows = .ok ctrCells ∧
      extractOpt (validateMediaData data).columnMappings "cpm" data.rows = .ok cpmCells ∧
      extractOpt (validateMediaData data).columnMappings "reach" data.rows = .ok reachCells ∧
      extractOpt (validateMediaData data).columnMappings "frequency" data.rows = .ok freqCells ∧
      extractOpt (validateMediaData data).columnMappings "cost" data.rows = .ok costCells ∧
      m = { totalCampaigns := data.rows.length
            totalRows := data.rows.length
            columnsFound := (validateMediaData data).foundColumns
            dataQuality := (validateMediaData data).dataQuality
            avgCTR := ctrCells.bind (fun cs => statAvg 2 (posVals cs))
            maxCTR := ctrCells.bind (fun cs => statMax 2 (posVals cs))
            minCTR := ctrCells.bind (fun cs => statMin 2 (posVals cs))
            avgCPM := cpmCells.bind (fun cs => statAvg 2 (posVals cs))
            maxCPM := cpmCells.bind (fun cs => statMax 2 (posVals cs))
            minCPM := cpmCells.bind (fun cs => statMin 2 (posVals cs))
            totalReach := reachCells.bind reachTotal
            avgReach := reachCells.bind reachAvg
            avgFrequency := freqCells.bind (fun cs => statAvg 1 (posVals cs))
            totalCost := costCells.bind costTotal
            avgCost := costCells.bind (fun cs => statAvg 2 (posVals cs)) } := by
  unfold calcBody at hb
  simp only [bind, Except.bind] at hb
  cases h1 : extractOpt (validateMediaData data).columnMappings "ctr" data.rows with
  | error e => rw [h1] at hb; simp at hb
  | ok o1 =>
  rw [h1] at hb
  cases h2 : extractOpt (validateMediaData data).columnMappings "cpm" data.rows with
  | error e => rw [h2] at hb; simp at hb
  | ok o2 =>
  rw [h2] at hb
  cases h3 : extractOpt (validateMediaData data).columnMappings "reach" data.rows with
  | error e => rw [h3] at hb; simp at hb
  | ok o3 =>
  rw [h3] at hb
  cases h4 : extractOpt (validateMediaData data).columnMappings "frequency" data.rows with
  | error e => rw [h4] at hb; simp at hb
  | ok o4 =>
  rw [h4] at hb
  cases h5 : extractOpt (validateMediaData data).columnMappings "cost" data.rows with
  | error e => rw [h5] at hb; simp at hb
  | ok o5 =>
  rw [h5] at hb
  simp only [pure, Except.pure, Except.ok.injEq] at hb
  exact ⟨o1, o2, o3, o4, o5, rfl, rfl, rfl, rfl, rfl, hb.symm⟩

/-- Every `statAvg` result is absent or fixed-point formatted. -/
theorem inFixedRange_statAvg (d : Nat) (vals : List JSNum) :
    inFixedRange d (statAvg d vals) := by
  cases vals with
  | nil => trivial
  | cons v vs => exact ⟨_, rfl⟩

/-- Every `statMax` result is absent or fixed-point formatted. -/
theorem inFixedRange_statMax (d : Nat) (vals : List JSNum) :
    inFixedRange d (statMax d vals) := by
  cases vals with
  | nil => trivial
  | cons v vs => exact ⟨_, rfl⟩

/-- Every `statMin` result is absent or fixed-point formatted. -/
theorem inFixedRange_statMin (d : Nat) (vals : List JSNum) :
    inFixedRange d (statMin d vals) := by
  cases vals with
  | nil => trivial
  | cons v vs => exact ⟨_, rfl⟩

/-- `inFixedRange` is preserved by binding over an optional cell list. -/
theorem inFixedRange_bind (d : Nat) (o : Option (List Cell)) (f : List Cell → Option String)
    (hf : ∀ cs, inFixedRange d (f cs)) : inFixedRange d (o.bind f) := by
  cases o with
  | none => trivial
  | some cs => exact hf cs

/-! ### Claim theorems -/

/-- C1: for every table with a non-empty header list matching exactly `k`
of the canonical fields the validator tries, `validateMediaData` returns
`isValid = true` iff `k ≥ 2`, and `dataQuality` is "excellent" iff
`k ≥ 4`, "good" iff `2 ≤ k ≤ 3`, and "limited" iff `k < 2`. -/
theorem validateMediaData_quality_thresholds (data : Table) (h : data.headers ≠ []) :
    ((validateMediaData data).isValid = true ↔ 2 ≤ matchedCount data.headers) ∧
    ((validateMediaData data).dataQuality = some "excellent" ↔ 4 ≤ matchedCount data.headers) ∧
    ((validateMediaData data).dataQuality = some "good" ↔
      (2 ≤ matchedCount data.headers ∧ matchedCount data.headers ≤ 3)) ∧
    ((validateMediaData data).dataQuality = some "limited" ↔ matchedCount data.headers < 2) := by
  have hne : data.headers.isEmpty = false := by
    cases hh : data.headers with
    | nil => exact absurd hh h
    | cons a l => rfl
  unfold validateMediaData matchedCount
  rw [hne]
  simp only [Bool.false_eq_true, if_false]
  refine ⟨decide_eq_true_iff, ?_, ?_, ?_⟩ <;>
    (split_ifs with h1 h2 <;> simp_all <;> omega)

/-- Witness for C1, instantiated at a table with exactly two matched
fields (ctr and cpm). -/
theorem validateMediaData_quality_thresholds_witness :
    ((validateMediaData ⟨["ctr", "cpm"], []⟩).isValid = true ↔ 2 ≤ matchedCount ["ctr", "cpm"]) ∧
    ((validateMediaData ⟨["ctr", "cpm"], []⟩).dataQuality = some "excellent" ↔
      4 ≤ matchedCount ["ctr", "cpm"]) ∧
    ((validateMediaData ⟨["ctr", "cpm"], []⟩).dataQuality = some "good" ↔
      (2 ≤ matchedCount ["ctr", "cpm"] ∧ matchedCount ["ctr", "cpm"] ≤ 3)) ∧
    ((validateMediaData ⟨["ctr", "cpm"], []⟩).dataQuality = some "limited" ↔
      matchedCount ["ctr", "cpm"] < 2) :=
  validateMediaData_quality_thresholds ⟨["ctr", "cpm"], []⟩ (by decide)

/-- C2 (counterexample): the field "budget" owns an alias list in the
Column Catalogue, yet for the table with headers ["channel"] it appears in
neither `foundColumns` nor `missingColumns`, so the two sets do not
partition the full catalogue: the validator only ever tries the eight
ideal columns. -/
theorem validateMediaData_catalogue_partition_fails :
    (validateMediaData ⟨["channel"], []⟩).foundColumns = some ["channel"] ∧
    ("budget" ∈ catalogueFields ∧ COLUMN_MAPPINGS "budget" ≠ []) ∧
    splitsList ["channel"] (validateMediaData ⟨["channel"], []⟩).missingColumns
      catalogueFields = false := by
  decide

/-- C2 (amended): for every table, the `foundColumns` and `missingColumns`
returned by `validateMediaData` partition the eight-element ideal-column
list the validator tries (channel, ctr, cpm, reach, frequency,
impressions, clicks, cost), not the full twelve-field catalogue. -/
theorem validateMediaData_partitions_idealColumns (data : Table) (fc : List String)
    (hfc : (validateMediaData data).foundColumns = some fc) :
    splitsList fc (validateMediaData data).missingColumns idealColumns = true := by
  by_cases hne : data.headers.isEmpty
  · simp [validateMediaData, hne] at hfc
  · simp only [validateMediaData, hne, Bool.false_eq_true, if_false, Option.some.injEq] at hfc ⊢
    subst hfc
    simp only [splitsList, Bool.and_eq_true, List.all_eq_true]
    refine ⟨⟨?_, ?_⟩, ?_⟩
    · intro c hc
      by_cases hp : (findColumnMatch data.headers c).found
      · simp [List.mem_filter, hc, hp]
      · simp [List.mem_filter, hc, hp]
    · intro c hc
      simp only [List.mem_filter] at hc
      simp [hc.1]
    · intro c hc
      simp only [List.mem_filter] at hc
      simp [hc.1]

/-- Witness for the amended C2, instantiated at the headers ["channel"]. -/
theorem validateMediaData_partitions_idealColumns_witness :
    splitsList ["channel"]
      (validateMediaData ⟨["channel"], []⟩).missingColumns idealColumns = true :=
  validateMediaData_partitions_idealColumns ⟨["channel"], []⟩ ["channel"] (by decide)

/-- C3: `findColumnMatch` returns the match of the first (alias, header)
pair in alias-major order: if no alias before position `ai` matches any
header and `findIdx?` locates header `hi` as the first hit for the alias
at `ai`, the returned match is found at index `hi` — alias order takes
precedence over header order. -/
theorem findColumnMatch_alias_order_precedence (headers : List String) (field : String)
    (ai hi : Nat)
    (ha : ai < (COLUMN_MAPPINGS field).length)
    (h1 : ∀ j, j < ai → ((headers.map normalizeHeader).findIdx?
        (fun h => headerAliasMatch h (normAlias ((COLUMN_MAPPINGS field).getD j "")))) = none)
    (h2 : (headers.map normalizeHeader).findIdx?
        (fun h => headerAliasMatch h (normAlias ((COLUMN_MAPPINGS field).getD ai ""))) = some hi) :
    findColumnMatch headers field =
      { found := true, originalName := some (headers.getD hi ""),
        index := (hi : Int), mappedTo := field } := by
  have hfa := findAliasIdx_first (headers.map normalizeHeader) (COLUMN_MAPPINGS field) ai hi ha h1 h2
  simp only [findColumnMatch, hfa]

/-- Witness for C3: for headers ["impression_cost", "cpm_cost"] and field
cpm, the first alias "cpm" already hits "cpm_cost" (header index 1), so
that match is returned even though the earlier header "impression_cost"
matches later aliases. -/
theorem findColumnMatch_alias_order_precedence_witness :
    findColumnMatch ["impression_cost", "cpm_cost"] "cpm" =
      { found := true, originalName := some "cpm_cost", index := 1, mappedTo := "cpm" } :=
  findColumnMatch_alias_order_precedence ["impression_cost", "cpm_cost"] "cpm" 0 1 (by decide)
    (fun j hj => absurd hj (Nat.not_lt_zero j)) (by decide)

/-- C4 (code bug): on a table whose ctr column is mapped and whose single
row is `null`, the `try` body throws a `TypeError`, and instead of
returning the minimal snapshot the `catch` block itself raises a
`ReferenceError` (it reads `totalRows`, which is block-scoped inside
`try`), so `calculateBasicMetrics` propagates an exception to the
caller. -/
theorem calculateBasicMetrics_catch_raises_refError :
    calcBody ⟨["ctr"], [JSRow.null]⟩ = .error JSErr.typeError ∧
    calculateBasicMetrics ⟨["ctr"], [JSRow.null]⟩ = .error JSErr.refError :=
  ⟨rfl, rfl⟩

/-- C5: for every matched numeric field — ctr, cpm, reach, frequency and
cost — the statistics of a returned snapshot are computed from exactly
the positive parsed values of the extracted cells: `posVals` (and
`posInts` on the `parseInt` path used for reach) keeps a cell only when
it parses to a number strictly greater than zero, and every statistic
builder (`statAvg`/`statMin`/`statMax`/`reachTotal`/`reachAvg`/`costTotal`)
returns `none` — the key is omitted — when no value survives the filter.
An unmapped field has `none` cells and so no statistics at all. -/
theorem calculateBasicMetrics_positive_filter (data : Table)
    (ctrCells cpmCells reachCells freqCells costCells : Option (List Cell))
    (h1 : extractOpt (validateMediaData data).columnMappings "ctr" data.rows = .ok ctrCells)
    (h2 : extractOpt (validateMediaData data).columnMappings "cpm" data.rows = .ok cpmCells)
    (h3 : extractOpt (validateMediaData data).columnMappings "reach" data.rows = .ok reachCells)
    (h4 : extractOpt (validateMediaData data).columnMappings "frequency" data.rows = .ok freqCells)
    (h5 : extractOpt (validateMediaData data).columnMappings "cost" data.rows = .ok costCells)
    (met : Metrics) (hr : calculateBasicMetrics data = .ok (some met)) :
    met.avgCTR = ctrCells.bind (fun cs => statAvg 2 (posVals cs)) ∧
    met.minCTR = ctrCells.bind (fun cs => statMin 2 (posVals cs)) ∧
    met.maxCTR = ctrCells.bind (fun cs => statMax 2 (posVals cs)) ∧
    met.avgCPM = cpmCells.bind (fun cs => statAvg 2 (posVals cs)) ∧
    met.minCPM = cpmCells.bind (fun cs => statMin 2 (posVals cs)) ∧
    met.maxCPM = cpmCells.bind (fun cs => statMax 2 (posVals cs)) ∧
    met.totalReach = reachCells.bind reachTotal ∧
    met.avgReach = reachCells.bind reachAvg ∧
    met.avgFrequency = freqCells.bind (fun cs => statAvg 1 (posVals cs)) ∧
    met.totalCost = costCells.bind costTotal ∧
    met.avgCost = costCells.bind (fun cs => statAvg 2 (posVals cs)) := by
  unfold calculateBasicMetrics at hr
  by_cases hrows : data.rows.isEmpty
  · simp [hrows] at hr
  · simp only [hrows, Bool.false_eq_true, if_false] at hr
    cases hb : calcBody data with
    | error e => rw [hb] at hr; exact absurd hr (by simp)
    | ok m2 =>
      rw [hb] at hr
      simp only [Except.ok.injEq, Option.some.injEq] at hr
      subst hr
      obtain ⟨o1, o2, o3, o4, o5, e1, e2, e3, e4, e5, hm2⟩ := calcBody_spec data m2 hb
      have ho1 : ctrCells = o1 := by injection (h1.symm.trans e1)
      have ho2 : cpmCells = o2 := by injection (h2.symm.trans e2)
      have ho3 : reachCells = o3 := by injection (h3.symm.trans e3)
      have ho4 : freqCells = o4 := by injection (h4.symm.trans e4)
      have ho5 : costCells = o5 := by injection (h5.symm.trans e5)
      subst ho1 ho2 ho3 ho4 ho5
      subst hm2
      exact ⟨rfl, rfl, rfl, rfl, rfl, rfl, rfl, rfl, rfl, rfl, rfl⟩

/-- Witness for C5 at a five-column table covering every numeric field:
the ctr column [5, -3, "abc", 0, 10] keeps only 5 and 10 (average "7.50",
minimum "5.00", maximum "10.00"); the cpm column has no positive value,
so all three cpm keys are omitted; the reach column keeps the parseInt
values 1000 and 2500 (total 3500, rounded average 1750); the frequency
column averages 3.24 and 4 to "3.6"; the cost column keeps 99.5 and 0.5
(total 100, average "50.00"). -/
theorem calculateBasicMetrics_positive_filter_witness :
    (some "7.50" : Option String) =
      (some [Cell.num 5, Cell.num (-3), Cell.str "abc", Cell.num 0, Cell.num 10] : Option (List Cell)).bind
        (fun cs => statAvg 2 (posVals cs)) ∧
    (some "5.00" : Option String) =
      (some [Cell.num 5, Cell.num (-3), Cell.str "abc", Cell.num 0, Cell.num 10] : Option (List Cell)).bind
        (fun cs => statMin 2 (posVals cs)) ∧
    (some "10.00" : Option String) =
      (some [Cell.num 5, Cell.num (-3), Cell.str "abc", Cell.num 0, Cell.num 10] : Option (List Cell)).bind
        (fun cs => statMax 2 (posVals cs)) ∧
    (none : Option String) =
      (some [Cell.num (-1), Cell.num 0, Cell.str "n/a", Cell.num (-2), Cell.num 0] : Option (List Cell)).bind
        (fun cs => statAvg 2 (posVals cs)) ∧
    (none : Option String) =
      (some [Cell.num (-1), Cell.num 0, Cell.str "n/a", Cell.num (-2), Cell.num 0] : Option (List Cell)).bind
        (fun cs => statMin 2 (posVals cs)) ∧
    (none : Option String) =
      (some [Cell.num (-1), Cell.num 0, Cell.str "n/a", Cell.num (-2), Cell.num 0] : Option (List Cell)).bind
        (fun cs => statMax 2 (posVals cs)) ∧
    (some 3500 : Option Int) =
      (some [Cell.num 1000, Cell.str "xyz", Cell.num 2500.7, Cell.num 0, Cell.num (-7)] : Option (List Cell)).bind
        reachTotal ∧
    (some 1750 : Option Int) =
      (some [Cell.num 1000, Cell.str "xyz", Cell.num 2500.7, Cell.num 0, Cell.num (-7)] : Option (List Cell)).bind
        reachAvg ∧
    (some "3.6" : Option String) =
      (some [Cell.num 3.24, Cell.str "", Cell.num 4, Cell.num 0, Cell.str "x"] : Option (List Cell)).bind
        (fun cs => statAvg 1 (posVals cs)) ∧
    (some ⟨100, 1⟩ : Option JSNum) =
      (some [Cell.num 99.5, Cell.num (-5), Cell.num 0.5, Cell.num 0, Cell.str "y"] : Option (List Cell)).bind
        costTotal ∧
    (some "50.00" : Option String) =
      (some [Cell.num 99.5, Cell.num (-5), Cell.num 0.5, Cell.num 0, Cell.str "y"] : Option (List Cell)).bind
        (fun cs => statAvg 2 (posVals cs)) :=
  calculateBasicMetrics_positive_filter
    ⟨["CTR", "CPM", "Reach", "Frequency", "Cost"],
     [JSRow.arr [Cell.num 5, Cell.num (-1), Cell.num 1000, Cell.num 3.24, Cell.num 99.5],
      JSRow.arr [Cell.num (-3), Cell.num 0, Cell.str "xyz", Cell.str "", Cell.num (-5)],
      JSRow.arr [Cell.str "abc", Cell.str "n/a", Cell.num 2500.7, Cell.num 4, Cell.num 0.5],
      JSRow.arr [Cell.num 0, Cell.num (-2), Cell.num 0, Cell.num 0, Cell.num 0],
      JSRow.arr [Cell.num 10, Cell.num 0, Cell.num (-7), Cell.str "x", Cell.str "y"]]⟩
    (some [Cell.num 5, Cell.num (-3), Cell.str "abc", Cell.num 0, Cell.num 10])
    (some [Cell.num (-1), Cell.num 0, Cell.str "n/a", Cell.num (-2), Cell.num 0])
    (some [Cell.num 1000, Cell.str "xyz", Cell.num 2500.7, Cell.num 0, Cell.num (-7)])
    (some [Cell.num 3.24, Cell.str "", Cell.num 4, Cell.num 0, Cell.str "x"])
    (some [Cell.num 99.5, Cell.num (-5), Cell.num 0.5, Cell.num 0, Cell.str "y"])
    rfl rfl rfl rfl rfl
    _ rfl

/-- C6 (counterexample): on the scenario table the validator does not find
exactly the four fields channel, ctr, cpm and reach — it finds five: the
clicks alias "click" also matches the header "Click-Through Rate". -/
theorem scenario_finds_clicks_too :
    (validateMediaData ⟨["Platform", "Click-Through Rate", "CPM ($)", "Total Reach"],
        [JSRow.arr [Cell.str "Facebook", Cell.num 2.3, Cell.num 15.5, Cell.num 45000]]⟩).foundColumns =
      some ["channel", "ctr", "cpm", "reach", "clicks"] ∧
    "clicks" ∉ (["channel", "ctr", "cpm", "reach"] : List String) := by
  decide

/-- C6 (amended): on the scenario table the validator finds the five
fields channel, ctr, cpm, reach and clicks, with `isValid = true` and
`dataQuality` "excellent", and the snapshot reports avgCTR "2.30",
avgCPM "15.50" and totalReach 45000. -/
theorem scenario_five_fields_excellent :
    (validateMediaData ⟨["Platform", "Click-Through Rate", "CPM ($)", "Total Reach"],
        [JSRow.arr [Cell.str "Facebook", Cell.num 2.3, Cell.num 15.5, Cell.num 45000]]⟩).isValid = true ∧
    (validateMediaData ⟨["Platform", "Click-Through Rate", "CPM ($)", "Total Reach"],
        [JSRow.arr [Cell.str "Facebook", Cell.num 2.3, Cell.num 15.5, Cell.num 45000]]⟩).dataQuality =
      some "excellent" ∧
    calculateBasicMetrics ⟨["Platform", "Click-Through Rate", "CPM ($)", "Total Reach"],
        [JSRow.arr [Cell.str "Facebook", Cell.num 2.3, Cell.num 15.5, Cell.num 45000]]⟩ =
      .ok (some
        { totalCampaigns := 1, totalRows := 1,
          columnsFound := some ["channel", "ctr", "cpm", "reach", "clicks"],
          dataQuality := some "excellent",
          avgCTR := some "2.30", maxCTR := some "2.30", minCTR := some "2.30",
          avgCPM := some "15.50", maxCPM := some "15.50", minCPM := some "15.50",
          totalReach := some 45000, avgReach := some 45000,
          avgFrequency := none, totalCost := none, avgCost := none }) :=
  ⟨by decide, by decide, rfl⟩

/-- C7: a table with an empty row list yields the no-data sentinel `null`
(`.ok none`): no exception and no zero-filled snapshot. -/
theorem calculateBasicMetrics_empty_rows_returns_null (data : Table)
    (h : data.rows = []) :
    calculateBasicMetrics data = .ok none := by
  simp [calculateBasicMetrics, h]

/-- Witness for C7 at a table with headers but no rows. -/
theorem calculateBasicMetrics_empty_rows_returns_null_witness :
    calculateBasicMetrics ⟨["Platform"], []⟩ = .ok none :=
  calculateBasicMetrics_empty_rows_returns_null ⟨["Platform"], []⟩ rfl

/-- C8: a table with an empty header list yields, without throwing, the
explicit invalid verdict with empty column mappings and the "no headers"
suggestions message. -/
theorem validateMediaData_no_headers_verdict (data : Table)
    (h : data.headers = []) :
    validateMediaData data =
      { isValid := false
        missingColumns := []
        suggestions := "No headers found in the CSV file. Please ensure the first row contains column headers."
        columnMappings := []
        recommendedColumns := []
        foundColumns := none
        hasChannelData := none
        dataQuality := none } := by
  simp [validateMediaData, h]

/-- Witness for C8 at a header-less table with one row. -/
theorem validateMediaData_no_headers_verdict_witness :
    validateMediaData ⟨[], [JSRow.arr [Cell.num 1]]⟩ =
      { isValid := false
        missingColumns := []
        suggestions := "No headers found in the CSV file. Please ensure the first row contains column headers."
        columnMappings := []
        recommendedColumns := []
        foundColumns := none
        hasChannelData := none
        dataQuality := none } :=
  validateMediaData_no_headers_verdict ⟨[], [JSRow.arr [Cell.num 1]]⟩ rfl

/-- C9: every payload produced by `prepareDataForAI` samples exactly the
first ten rows (in order, fewer when the table is shorter) while
`totalRows` is the full row count. -/
theorem prepareDataForAI_sample_bounded (data : Table) (p : AIPayload)
    (h : prepareDataForAI data = .ok p) :
    p.sampleRows = data.rows.take 10 ∧ p.sampleRows.length ≤ 10 ∧
    p.totalRows = data.rows.length := by
  unfold prepareDataForAI at h
  simp only [bind, Except.bind] at h
  cases hb : calculateBasicMetrics data with
  | error e => rw [hb] at h; exact absurd h (by simp)
  | ok bm =>
    rw [hb] at h
    simp only [pure, Except.pure, Except.ok.injEq] at h
    subst h
    refine ⟨rfl, ?_, rfl⟩
    simp [List.length_take]

/-- Witness for C9 at a twelve-row table: ten rows are sampled,
`totalRows` is twelve. -/
theorem prepareDataForAI_sample_bounded_witness :
    (List.replicate 10 (JSRow.arr []) = (List.replicate 12 (JSRow.arr [])).take 10) ∧
    (List.replicate 10 (JSRow.arr [])).length ≤ 10 ∧
    (12 : Nat) = (List.replicate 12 (JSRow.arr [])).length :=
  prepareDataForAI_sample_bounded ⟨["foo"], List.replicate 12 (JSRow.arr [])⟩
    { originalHeaders := ["foo"], mappedColumns := [],
      foundColumns := some [], dataQuality := some "limited",
      sampleRows := List.replicate 10 (JSRow.arr []),
      totalRows := 12,
      basicMetrics := some
        { totalCampaigns := 12, totalRows := 12,
          columnsFound := some [], dataQuality := some "limited",
          avgCTR := none, maxCTR := none, minCTR := none,
          avgCPM := none, maxCPM := none, minCPM := none,
          totalReach := none, avgReach := none,
          avgFrequency := none, totalCost := none, avgCost := none },
      hasChannelData := some false }
    rfl

/-- C10: in every snapshot returned by `calculateBasicMetrics`, the
average/min/max statistics for ctr, cpm and cost carry two-decimal
fixed-point strings and the frequency average a one-decimal string,
while — by the `Metrics` field types — `totalReach` and `avgReach` are
integers, `totalCost` is a number, and `totalRows`/`totalCampaigns` are
counts: the snapshot mixes string-typed and number-typed statistics. -/
theorem calculateBasicMetrics_stat_string_types (data : Table) (m : Metrics)
    (hr : calculateBasicMetrics data = .ok (some m)) :
    inFixedRange 2 m.avgCTR ∧ inFixedRange 2 m.minCTR ∧ inFixedRange 2 m.maxCTR ∧
    inFixedRange 2 m.avgCPM ∧ inFixedRange 2 m.minCPM ∧ inFixedRange 2 m.maxCPM ∧
    inFixedRange 1 m.avgFrequency ∧ inFixedRange 2 m.avgCost := by
  unfold calculateBasicMetrics at hr
  by_cases hrows : data.rows.isEmpty
  · simp [hrows] at hr
  · simp only [hrows, Bool.false_eq_true, if_false] at hr
    cases hb : calcBody data with
    | error e => rw [hb] at hr; exact absurd hr (by simp)
    | ok m2 =>
      rw [hb] at hr
      simp only [Except.ok.injEq, Option.some.injEq] at hr
      subst hr
      obtain ⟨o1, o2, o3, o4, o5, e1, e2, e3, e4, e5, hm2⟩ := calcBody_spec data m2 hb
      subst hm2
      refine ⟨?_, ?_, ?_, ?_, ?_, ?_, ?_, ?_⟩
      · exact inFixedRange_bind 2 o1 _ (fun cs => inFixedRange_statAvg 2 (posVals cs))
      · exact inFixedRange_bind 2 o1 _ (fun cs => inFixedRange_statMin 2 (posVals cs))
      · exact inFixedRange_bind 2 o1 _ (fun cs => inFixedRange_statMax 2 (posVals cs))
      · exact inFixedRange_bind 2 o2 _ (fun cs => inFixedRange_statAvg 2 (posVals cs))
      · exact inFixedRange_bind 2 o2 _ (fun cs => inFixedRange_statMin 2 (posVals cs))
      · exact inFixedRange_bind 2 o2 _ (fun cs => inFixedRange_statMax 2 (posVals cs))
      · exact inFixedRange_bind 1 o4 _ (fun cs => inFixedRange_statAvg 1 (posVals cs))
      · exact inFixedRange_bind 2 o5 _ (fun cs => inFixedRange_statAvg 2 (posVals cs))

/-- Witness for C10 at a five-column table: every present string statistic
is fixed-point formatted ("2.50", "10.00", "3.2", "99.50"), alongside the
integer `totalReach`/`avgReach` 1000 and the numeric `totalCost` 99.5. -/
theorem calculateBasicMetrics_stat_string_types_witness :
    inFixedRange 2 (some "2.50") ∧ inFixedRange 2 (some "2.50") ∧ inFixedRange 2 (some "2.50") ∧
    inFixedRange 2 (some "10.00") ∧ inFixedRange 2 (some "10.00") ∧ inFixedRange 2 (some "10.00") ∧
    inFixedRange 1 (some "3.2") ∧ inFixedRange 2 (some "99.50") :=
  calculateBasicMetrics_stat_string_types
    ⟨["CTR", "CPM", "Frequency", "Reach", "Cost"],
     [JSRow.arr [Cell.num 2.5, Cell.num 10, Cell.num 3.24, Cell.num 1000, Cell.num 99.5]]⟩
    { totalCampaigns := 1, totalRows := 1,
      columnsFound := some ["ctr", "cpm", "reach", "frequency", "cost"],
      dataQuality := some "excellent",
      avgCTR := some "2.50", maxCTR := some "2.50", minCTR := some "2.50",
      avgCPM := some "10.00", maxCPM := some "10.00", minCPM := some "10.00",
      totalReach := some 1000, avgReach := some 1000,
      avgFrequency := some "3.2", totalCost := some ⟨199, 2⟩, avgCost := some "99.50" }
    rfl

end MediaPlanner
